import Mathlib

/-!
Shallow embedding of the cargo-nds command-translation core
(`src/command.rs`, `src/lib.rs`): the intent model, argument splitting,
message-format extraction, the runner probe with its process-global
memoization, command synthesis, and artifact resolution.

Process state (the parent environment plus the `HAS_RUNNER` once-cell) is
passed explicitly; child-process invocations are values of a `Command`
structure, and the outcome of spawning the probe process is an oracle
parameter.
-/

namespace CargoNds

/-- Rust `Iterator::position`: index of the first element satisfying `p`. -/
def position (p : α → Bool) : List α → Option Nat
  | [] => none
  | x :: xs => if p x then some 0 else (position p xs).map (· + 1)

/-- Rust `Vec::remove(i)`: the removed element and the remaining vector;
`none` models the out-of-bounds panic. -/
def remove_at : List α → Nat → Option (α × List α)
  | [], _ => none
  | x :: xs, 0 => some (x, xs)
  | x :: xs, n + 1 => (remove_at xs n).map (fun q => (q.1, x :: q.2))

/-- Helper for `split_once`: split a character list at the first occurrence of `c`. -/
def split_once_aux (c : Char) : List Char → Option (List Char × List Char)
  | [] => none
  | x :: xs =>
    if x == c then some ([], xs)
    else (split_once_aux c xs).map (fun q => (x :: q.1, q.2))

/-- Rust `str::split_once(c)`: the parts strictly before and after the first `c`. -/
def split_once (s : String) (c : Char) : Option (String × String) :=
  (split_once_aux c s.data).map (fun q => (⟨q.1⟩, ⟨q.2⟩))

/-- Boolean list-prefix test, used to express Rust `str::starts_with`. -/
def isPrefixList [BEq α] : List α → List α → Bool
  | [], _ => true
  | _ :: _, [] => false
  | a :: as, b :: bs => a == b && isPrefixList as bs

/-- Rust `str::starts_with` on the character sequences. -/
def starts_with (s pat : String) : Bool := isPrefixList pat.data s.data

/-- The parent process environment: a mapping from variable names to values. -/
abbrev Env := String → Option String

/-- Rust `env::set_var` acting on the parent environment. -/
def set_var (e : Env) (k v : String) : Env :=
  fun k' => if k' == k then some v else e k'

/-- Argument vector and environment overlay of one child-process invocation.
The environment entries are passed into the spawn call only (`Command::env`). -/
structure Command where
  program : String
  args : List String
  envs : List (String × String)
deriving DecidableEq

/-- Outcome of spawning the probe child process (`Command::status()` in Rust):
either the process ran and exited with a code, or the spawn itself failed. -/
inductive ProbeOutcome
  | exited (code : Nat)
  | spawnFailure
deriving DecidableEq

/-- External-world oracle: the result of running a given probe invocation. -/
abbrev ProbeOracle := Command → ProbeOutcome

/-- Process-global mutable state touched by the runner probe: the parent
environment and the `HAS_RUNNER` once-cell (`static ... OnceLock` in
`command.rs` line 416, shared by the whole process). -/
structure PState where
  env : Env
  cache : Option Bool

/-- Rust helper `cargo(config)` (`lib.rs` 122-127): a `cargo` command with the
`--config=` flags prepended. -/
def cargo (e : Env) (config : List String) : Command :=
  { program := (e "CARGO").getD "cargo"
    args := config.map (fun cfg => "--config=" ++ cfg)
    envs := [] }

/-- Passthrough arguments (`RemainingArgs` in `command.rs`). -/
structure RemainingArgs where
  args : List String
deriving DecidableEq

/-- The `Build` option set (`command.rs` 88-96). -/
structure Build where
  verbose : Bool
  passthrough : RemainingArgs
deriving DecidableEq

/-- The `Run` option set (`command.rs` 98-129); the device address is kept as a
plain string. -/
structure Run where
  address : Option String
  argv0 : Option String
  server : Bool
  retries : Option Nat
  build_args : Build
  config : List String
deriving DecidableEq

/-- The `Test` option set (`command.rs` 131-146). -/
structure Test where
  no_run : Bool
  doc : Bool
  run_args : Run
deriving DecidableEq

/-- The `New` option set (`command.rs` 148-157). -/
structure New where
  path : String
  cargo_args : RemainingArgs
deriving DecidableEq

/-- The `Init` option set (`command.rs` 159-168). -/
structure Init where
  path : String
  cargo_args : RemainingArgs
deriving DecidableEq

/-- The closed set of command variants (`CargoCmd` in `command.rs` 41-67). -/
inductive CargoCmd
  | Build (b : Build)
  | Run (r : Run)
  | Test (t : Test)
  | New (n : New)
  | Init (i : Init)
  | Passthrough (args : List String)
deriving DecidableEq

/-- Top-level parsed input (`Input` in `command.rs` 18-34). -/
structure Input where
  cmd : CargoCmd
  verbose : Bool
  config : List String

/-- `RemainingArgs::split_args` (`command.rs` 353-365): find the first `"--"`,
`split_off` everything after it, and `pop` the delimiter itself. -/
def RemainingArgs.split_args (ra : RemainingArgs) : List String × List String :=
  let args := ra.args
  match position (fun s => s == "--") args with
  | some split =>
    let second_half := args.drop (split + 1)
    let first_half := (args.take (split + 1)).dropLast
    (first_half, second_half)
  | none => (args, [])

/-- `RemainingArgs::cargo_args` (`command.rs` 344-346). -/
def RemainingArgs.cargo_args (ra : RemainingArgs) : List String := ra.split_args.1

/-- `RemainingArgs::exe_args` (`command.rs` 349-351). -/
def RemainingArgs.exe_args (ra : RemainingArgs) : List String := ra.split_args.2

/-- The `RUSTFLAGS` value derived from the SDK root (`command.rs` 419-420 and
`lib.rs` 70-72). -/
def rustflags_of (e : Env) : String :=
  let blocksds := (e "BLOCKSDS").getD "/opt/wonderful/thirdparty/blocksds/core"
  "-C link-args=-specs=" ++ blocksds ++ "/sys/crts/ds_arm9.specs"

/-- The probe invocation built in `Run::use_custom_runner` (`command.rs`
422-431): `cargo` with the instance's `--config` overrides plus the fixed
target/build-std arguments, output suppressed. -/
def Run.probe_command (r : Run) (e : Env) : Command :=
  let cmd := cargo e r.config
  { cmd with args := cmd.args ++ ["-Z", "build-std=core,alloc", "--target", "./armv5te-nintendo-ds.json"] }

/-- `Run::use_custom_runner` (`command.rs` 415-449). The `HAS_RUNNER` once-cell
lives in `PState.cache`; on first computation the closure reads `BLOCKSDS`,
mutates the parent environment with `env::set_var("RUSTFLAGS", ...)`, spawns
the probe and maps its status via `map_or(false, |s| s.success())`. -/
def Run.use_custom_runner (probe : ProbeOracle) (r : Run) (st : PState) : Bool × PState :=
  match st.cache with
  | some b => (b, st)
  | none =>
    let env' := set_var st.env "RUSTFLAGS" (rustflags_of st.env)
    let result :=
      match probe (r.probe_command env') with
      | .exited code => code == 0
      | .spawnFailure => false
    (result, ⟨env', some result⟩)

/-- `CargoCmd::should_compile` (`command.rs` 220-225). -/
def CargoCmd.should_compile : CargoCmd → Bool
  | .Build _ | .Run _ | .Test _ | .Passthrough _ => true
  | _ => false

/-- `CargoCmd::subcommand_name` (`command.rs` 202-217); the `Run` arm consults
the runner probe. -/
def CargoCmd.subcommand_name (probe : ProbeOracle) (st : PState) :
    CargoCmd → String × PState
  | .Build _ => ("build", st)
  | .Run r =>
    let q := r.use_custom_runner probe st
    (if q.1 then "run" else "build", q.2)
  | .Test _ => ("test", st)
  | .New _ => ("new", st)
  | .Init _ => ("init", st)
  | .Passthrough cmdArgs => (cmdArgs.headD "", st)

/-- `CargoCmd::should_link_to_device` (`command.rs` 245-251): a no-run `Test`
never deploys, `Run` and running `Test` deploy exactly when no custom runner is
configured, every other variant never deploys. -/
def CargoCmd.should_link_to_device (probe : ProbeOracle) (st : PState) :
    CargoCmd → Bool × PState
  | .Test t =>
    if t.no_run then (false, st)
    else
      let q := t.run_args.use_custom_runner probe st
      (!q.1, q.2)
  | .Run r =>
    let q := r.use_custom_runner probe st
    (!q.1, q.2)
  | _ => (false, st)

/-- `Test::should_run` (`command.rs` 466-468). -/
def Test.should_run (probe : ProbeOracle) (t : Test) (st : PState) : Bool × PState :=
  let q := t.run_args.use_custom_runner probe st
  (q.1 && !t.no_run, q.2)

/-- `Test::rustdocflags` (`command.rs` 496-504). -/
def Test.rustdocflags (probe : ProbeOracle) (t : Test) (st : PState) : String × PState :=
  let q := t.should_run probe st
  (if q.1 then "" else " --no-run", q.2)

/-- `Test::cargo_args` (`command.rs` 471-493). -/
def Test.cargo_args (probe : ProbeOracle) (t : Test) (st : PState) : List String × PState :=
  let base := t.run_args.build_args.passthrough.cargo_args
  if t.doc then
    (base ++ ["--doc", "-Z", "doctest-xcompile"], st)
  else
    let q := t.should_run probe st
    (if q.1 then base else base ++ ["--no-run"], q.2)

/-- `CargoCmd::cargo_args` (`command.rs` 172-193). -/
def CargoCmd.cargo_args (probe : ProbeOracle) (st : PState) :
    CargoCmd → List String × PState
  | .Build b => (b.passthrough.cargo_args, st)
  | .Run r => (r.build_args.passthrough.cargo_args, st)
  | .Test t => t.cargo_args probe st
  | .New n => (n.cargo_args.cargo_args ++ [n.path], st)
  | .Init i => (i.cargo_args.cargo_args ++ [i.path], st)
  | .Passthrough other => (other.drop 1, st)

/-- Result of the in-place message-format extraction: `ok` carries the
extracted format and the updated container, `err` the `UnsupportedFormat`
message, and `panicked` the out-of-bounds `Vec::remove`. -/
inductive ExtractResult (α : Type)
  | ok (fmt : Option String) (val : α)
  | err (msg : String)
  | panicked
deriving DecidableEq

/-- The error message of `command.rs` 305-307. -/
def UNSUPPORTED_FORMAT_MSG : String := "error: non-JSON `message-format` is not supported"

/-- `CargoCmd::extract_message_format_from_args` (`command.rs` 280-312): find
the first token starting with `--message-format`, remove it, take the suffix
after `=` or else remove the next token at the same index, and accept only
formats starting with `json`. -/
def extract_message_format_from_args (cargo_args : List String) :
    ExtractResult (List String) :=
  match position (fun s => starts_with s "--message-format") cargo_args with
  | none => .ok none cargo_args
  | some pos =>
    match remove_at cargo_args pos with
    | none => .panicked
    | some (arg, rest) =>
      let step : Option (String × List String) :=
        match split_once arg '=' with
        | some (_, format) => some (format, rest)
        | none => remove_at rest pos
      match step with
      | none => .panicked
      | some (format, rest') =>
        if starts_with format "json" then .ok (some format) rest'
        else .err UNSUPPORTED_FORMAT_MSG

/-- The per-variant argument list handed to `extract_message_format_from_args`
(`command.rs` 256-263). -/
def CargoCmd.message_args : CargoCmd → List String
  | .Build b => b.passthrough.args
  | .Run r => r.build_args.passthrough.args
  | .New n => n.cargo_args.args
  | .Init i => i.cargo_args.args
  | .Test t => t.run_args.build_args.passthrough.args
  | .Passthrough args => args

/-- Write the mutated argument list back into the owning variant, modelling the
in-place mutation through the `&mut` borrow. -/
def CargoCmd.with_message_args : CargoCmd → List String → CargoCmd
  | .Build b, l => .Build { b with passthrough := { args := l } }
  | .Run r, l => .Run { r with build_args := { r.build_args with passthrough := { args := l } } }
  | .New n, l => .New { n with cargo_args := { args := l } }
  | .Init i, l => .Init { i with cargo_args := { args := l } }
  | .Test t, l =>
    .Test { t with run_args := { t.run_args with
      build_args := { t.run_args.build_args with passthrough := { args := l } } } }
  | .Passthrough _, l => .Passthrough l

/-- `CargoCmd::extract_message_format` (`command.rs` 255-278): extraction from
the variant's args, then the doc-test `Some("human")` fallback. -/
def CargoCmd.extract_message_format (cmd : CargoCmd) : ExtractResult CargoCmd :=
  match extract_message_format_from_args cmd.message_args with
  | .panicked => .panicked
  | .err m => .err m
  | .ok format rest =>
    let cmd' := cmd.with_message_args rest
    if format.isSome then .ok format cmd'
    else
      match cmd' with
      | .Test t => if t.doc then .ok (some "human") cmd' else .ok none cmd'
      | _ => .ok none cmd'

/-- `CargoCmd::DEFAULT_MESSAGE_FORMAT` (`command.rs` 253). -/
def CargoCmd.DEFAULT_MESSAGE_FORMAT : String := "json-render-diagnostics"

/-- `make_cargo_command` (`lib.rs` 69-119), with the process-global state
threaded explicitly through every call that may run the probe. The standard
stream configuration of the final command is not modelled. -/
def make_cargo_command (probe : ProbeOracle) (input : Input)
    (message_format : Option String) (st : PState) : Command × PState :=
  let rustflags := rustflags_of st.env
  let cargo_cmd := input.cmd
  let command := cargo st.env input.config
  let s1 := CargoCmd.subcommand_name probe st cargo_cmd
  let st1 := s1.2
  let command := { command with
    args := command.args ++ [s1.1]
    envs := command.envs ++ [("RUSTFLAGS", rustflags)] }
  let command :=
    if cargo_cmd.should_compile then
      { command with args := command.args ++
          ["--target", "armv5te-nintendo-ds.json", "-Z", "build-std=core,alloc",
           "--message-format", message_format.getD CargoCmd.DEFAULT_MESSAGE_FORMAT] }
    else command
  let s2 :=
    match cargo_cmd with
    | .Test t =>
      let q := t.rustdocflags probe st1
      ({ command with envs := command.envs ++
           [("RUSTDOCFLAGS", ((st1.env "RUSTDOCFLAGS").getD "") ++ q.1)] }, q.2)
    | _ => (command, st1)
  let command := s2.1
  let st2 := s2.2
  let s3 := CargoCmd.cargo_args probe st2 cargo_cmd
  let st3 := s3.2
  let command := { command with args := command.args ++ s3.1 }
  let s4 :=
    match cargo_cmd with
    | .Run r =>
      let q := r.use_custom_runner probe st3
      (if q.1 then
         { command with args := command.args ++ "--" :: r.build_args.passthrough.exe_args }
       else command, q.2)
    | .Test t =>
      let q := t.run_args.use_custom_runner probe st3
      (if q.1 then
         { command with args := command.args ++ "--" :: t.run_args.build_args.passthrough.exe_args }
       else command, q.2)
    | _ => (command, st3)
  s4

/-- Target description of a compiler-artifact message (`cargo_metadata`). -/
structure Target where
  kind : List String
  name : String
  test : Bool
deriving DecidableEq

/-- A compiler-artifact message payload: package identity, optional executable
path, and the target description. -/
structure Artifact where
  package_id : String
  executable : Option String
  target : Target
deriving DecidableEq

/-- A structured build message, reduced to what `get_metadata` inspects. -/
inductive Message
  | compilerArtifact (art : Artifact)
  | other
deriving DecidableEq

/-- Loop body of the reverse scan in `get_metadata` (`lib.rs` 213-222): a
message qualifies when it is a compiler artifact with an executable path. -/
def artifact_of : Message → Option Artifact
  | .compilerArtifact art => if art.executable.isSome then some art else none
  | .other => none

/-- The reverse scan of `get_metadata`: iterate `messages.iter().rev()` and
stop at the first qualifying message, i.e. the last one emitted. -/
def find_artifact : List Message → Option Artifact
  | [] => none
  | m :: rest =>
    match find_artifact rest with
    | some a => some a
    | none => artifact_of m

/-- Artifact resolution of `get_metadata` (`lib.rs` 202-228): `Except.error 1`
models the `eprintln` diagnostic followed by `process::exit(1)` when no
qualifying message exists; the descriptor fields taken from the external
`cargo metadata` lookup are not modelled, the authoritative artifact is
returned. -/
def get_metadata (messages : List Message) : Except Nat Artifact :=
  match find_artifact messages with
  | none => .error 1
  | some art => .ok art

/-! Helper lemmas about the Rust-primitive embeddings. -/

theorem position_eq_none (p : α → Bool) :
    ∀ (l : List α), (∀ a ∈ l, p a = false) → position p l = none
  | [], _ => rfl
  | x :: xs, h => by
    have hx : p x = false := h x (List.mem_cons_self x xs)
    have ih := position_eq_none p xs (fun a ha => h a (List.mem_cons_of_mem x ha))
    simp [position, hx, ih]

theorem position_append_cons (p : α → Bool) :
    ∀ (l₁ : List α) (x : α) (l₂ : List α), (∀ a ∈ l₁, p a = false) → p x = true →
      position p (l₁ ++ x :: l₂) = some l₁.length
  | [], x, l₂, _, hx => by simp [position, hx]
  | y :: ys, x, l₂, h, hx => by
    have hy : p y = false := h y (List.mem_cons_self y ys)
    have ih := position_append_cons p ys x l₂ (fun a ha => h a (List.mem_cons_of_mem y ha)) hx
    simp [position, hy, ih]

theorem remove_at_append_cons : ∀ (l₁ : List α) (x : α) (l₂ : List α),
    remove_at (l₁ ++ x :: l₂) l₁.length = some (x, l₁ ++ l₂)
  | [], _, _ => rfl
  | y :: ys, x, l₂ => by simp [remove_at, remove_at_append_cons ys x l₂]

theorem remove_at_length_self : ∀ (l : List α), remove_at l l.length = none
  | [] => rfl
  | y :: ys => by simp [remove_at, remove_at_length_self ys]

theorem split_once_aux_not_mem (c : Char) :
    ∀ (l : List Char), (∀ a ∈ l, (a == c) = false) → split_once_aux c l = none
  | [], _ => rfl
  | x :: xs, h => by
    have hx := h x (List.mem_cons_self x xs)
    have ih := split_once_aux_not_mem c xs (fun a ha => h a (List.mem_cons_of_mem x ha))
    simp [split_once_aux, hx, ih]

theorem split_once_aux_append (c : Char) :
    ∀ (l₁ l₂ : List Char), (∀ a ∈ l₁, (a == c) = false) →
      split_once_aux c (l₁ ++ c :: l₂) = some (l₁, l₂)
  | [], l₂, _ => by simp [split_once_aux]
  | x :: xs, l₂, h => by
    have hx := h x (List.mem_cons_self x xs)
    have ih := split_once_aux_append c xs l₂ (fun a ha => h a (List.mem_cons_of_mem x ha))
    simp [split_once_aux, hx, ih]

theorem isPrefixList_append [BEq α] [LawfulBEq α] :
    ∀ (l₁ l₂ : List α), isPrefixList l₁ (l₁ ++ l₂) = true
  | [], _ => rfl
  | x :: xs, l₂ => by simp [isPrefixList, isPrefixList_append xs l₂]

theorem flag_data_eq : "--message-format=".data = "--message-format".data ++ ['='] := by
  decide

theorem flag_no_eq_char : ∀ a ∈ "--message-format".data, (a == '=') = false := by
  decide

theorem flag_append_data (v : String) :
    ("--message-format=" ++ v).data = "--message-format".data ++ '=' :: v.data := by
  rw [String.data_append, flag_data_eq]
  simp

theorem split_once_flag (v : String) :
    split_once ("--message-format=" ++ v) '=' = some ("--message-format", v) := by
  unfold split_once
  rw [flag_append_data, split_once_aux_append '=' _ _ flag_no_eq_char]
  simp

theorem starts_with_flag_eq_form (v : String) :
    starts_with ("--message-format=" ++ v) "--message-format" = true := by
  unfold starts_with
  rw [flag_append_data]
  exact isPrefixList_append _ _

theorem take_append_cons : ∀ (l₁ : List α) (x : α) (l₂ : List α),
    (l₁ ++ x :: l₂).take (l₁.length + 1) = l₁ ++ [x]
  | [], _, _ => by simp
  | y :: ys, x, l₂ => by simp [take_append_cons ys x l₂]

theorem drop_append_cons : ∀ (l₁ : List α) (x : α) (l₂ : List α),
    (l₁ ++ x :: l₂).drop (l₁.length + 1) = l₂
  | [], _, _ => by simp
  | y :: ys, x, l₂ => by simp [drop_append_cons ys x l₂]

theorem dropLast_append_singleton : ∀ (l : List α) (x : α), (l ++ [x]).dropLast = l
  | [], _ => rfl
  | y :: ys, x => by
    have := dropLast_append_singleton ys x
    cases ys <;> simp_all [List.dropLast]

/-- Behaviour of the extractor on a `--message-format=value` token occurring
after tokens that do not match the flag: the value is the suffix after the
first `=`, accepted exactly when it starts with `json`. -/
theorem extract_eq_form (pre post : List String) (v : String)
    (hpre : ∀ s ∈ pre, starts_with s "--message-format" = false) :
    extract_message_format_from_args (pre ++ ("--message-format=" ++ v) :: post) =
      (if starts_with v "json" then ExtractResult.ok (some v) (pre ++ post)
       else ExtractResult.err UNSUPPORTED_FORMAT_MSG) := by
  rw [extract_message_format_from_args,
    position_append_cons _ pre _ post hpre (starts_with_flag_eq_form v)]
  simp only [remove_at_append_cons pre _ post, split_once_flag]

/-- Behaviour of the extractor on a `--message-format` token followed by a
separate value token: the next token is consumed as the value, accepted exactly
when it starts with `json`. -/
theorem extract_space_form (pre post : List String) (v : String)
    (hpre : ∀ s ∈ pre, starts_with s "--message-format" = false) :
    extract_message_format_from_args (pre ++ "--message-format" :: v :: post) =
      (if starts_with v "json" then ExtractResult.ok (some v) (pre ++ post)
       else ExtractResult.err UNSUPPORTED_FORMAT_MSG) := by
  have hso : split_once "--message-format" '=' = none := by decide
  rw [extract_message_format_from_args,
    position_append_cons _ pre _ (v :: post) hpre (by decide)]
  simp only [remove_at_append_cons pre _ (v :: post), hso, remove_at_append_cons pre v post]

/-! Concrete instances shared by witnesses and counterexamples. -/

/-- A `Run` instance with empty options. -/
def run_noargs : Run := ⟨none, none, false, none, ⟨false, ⟨[]⟩⟩, []⟩

/-- A `Run` instance whose `--config` override is `a`. -/
def run_cfg_a : Run := ⟨none, none, false, none, ⟨false, ⟨[]⟩⟩, ["a"]⟩

/-- A `Run` instance whose `--config` override is `b`. -/
def run_cfg_b : Run := ⟨none, none, false, none, ⟨false, ⟨[]⟩⟩, ["b"]⟩

/-- An empty parent environment. -/
def env_empty : Env := fun _ => none

/-- A probe oracle whose process succeeds for every invocation. -/
def probe_true : ProbeOracle := fun _ => ProbeOutcome.exited 0

/-- A probe oracle that succeeds exactly when the probe carries `--config=a`. -/
def probe_sel : ProbeOracle :=
  fun c => if "--config=a" ∈ c.args then ProbeOutcome.exited 0 else ProbeOutcome.exited 1

/-- A `Test` intent with the no-run flag set. -/
def test_norun : Test := ⟨true, false, run_noargs⟩

/-- An initial process state: empty environment, unfilled once-cell. -/
def pstate0 : PState := ⟨env_empty, none⟩

/-! Claim theorems. -/

/-- C3, counterexample: the claim quantifies over every argument list containing
a format-flag token, and at `["--message-format=foo"]` it predicts that
extraction returns `Some "foo"` with the token removed; the code instead
rejects the non-JSON value with `UnsupportedFormat`. -/
theorem C3_counterexample :
    extract_message_format_from_args ["--message-format=foo"] =
        ExtractResult.err UNSUPPORTED_FORMAT_MSG ∧
    extract_message_format_from_args ["--message-format=foo"] ≠
        ExtractResult.ok (some "foo") [] := by
  constructor
  · decide
  · decide

/-- C3 (amended): for every argument list containing a format flag in either
the `--message-format=value` or the `--message-format value` form — provided
the flag token is the first token starting with `--message-format` and the
candidate value begins with `json` — extraction returns `Some` of that value
unchanged (for the `=` form, the suffix after the first `=`) and removes
exactly the consumed token(s), leaving all other tokens in their original
relative order. -/
theorem C3_message_format_extraction (pre post : List String) (v : String)
    (hpre : ∀ s ∈ pre, starts_with s "--message-format" = false)
    (hv : starts_with v "json" = true) :
    extract_message_format_from_args (pre ++ ("--message-format=" ++ v) :: post) =
      ExtractResult.ok (some v) (pre ++ post) ∧
    extract_message_format_from_args (pre ++ "--message-format" :: v :: post) =
      ExtractResult.ok (some v) (pre ++ post) := by
  rw [extract_eq_form pre post v hpre, extract_space_form pre post v hpre, hv]
  exact ⟨rfl, rfl⟩

/-- Witness for C3 at the repository's own test input. -/
theorem C3_message_format_extraction_witness :
    extract_message_format_from_args ["--foo", "--message-format=json", "bar"] =
      ExtractResult.ok (some "json") ["--foo", "bar"] :=
  (C3_message_format_extraction ["--foo"] ["bar"] "json" (by decide) (by decide)).1

/-- C7: for every argument list from which a candidate format value is
extracted (in either form), if the value does not begin with `json` the
extraction fails with the `UnsupportedFormat` error rather than returning a
value. -/
theorem C7_non_json_rejected (pre post : List String) (v : String)
    (hpre : ∀ s ∈ pre, starts_with s "--message-format" = false)
    (hv : starts_with v "json" = false) :
    extract_message_format_from_args (pre ++ ("--message-format=" ++ v) :: post) =
      ExtractResult.err UNSUPPORTED_FORMAT_MSG ∧
    extract_message_format_from_args (pre ++ "--message-format" :: v :: post) =
      ExtractResult.err UNSUPPORTED_FORMAT_MSG := by
  rw [extract_eq_form pre post v hpre, extract_space_form pre post v hpre, hv]
  exact ⟨rfl, rfl⟩

/-- Witness for C7 at the repository's own failing test input. -/
theorem C7_non_json_rejected_witness :
    extract_message_format_from_args ["--message-format", "foo"] =
      ExtractResult.err UNSUPPORTED_FORMAT_MSG :=
  (C7_non_json_rejected [] [] "foo" (by decide) (by decide)).2

/-- C10: when the matched format-flag token contains no `=` and is the final
element of the list, the extractor removes the flag and then calls
`Vec::remove` at an out-of-bounds index, panicking instead of returning a
value or an error. -/
theorem C10_flag_last_panics (pre : List String) (t : String)
    (hpre : ∀ s ∈ pre, starts_with s "--message-format" = false)
    (ht : starts_with t "--message-format" = true)
    (hne : ∀ a ∈ t.data, (a == '=') = false) :
    extract_message_format_from_args (pre ++ [t]) = ExtractResult.panicked := by
  have hso : split_once t '=' = none := by
    unfold split_once
    rw [split_once_aux_not_mem '=' t.data hne]
    rfl
  rw [extract_message_format_from_args, position_append_cons _ pre t [] hpre ht]
  simp only [remove_at_append_cons pre t [], hso, List.append_nil, remove_at_length_self]

/-- Witness for C10: a bare trailing `--message-format` panics. -/
theorem C10_flag_last_panics_witness :
    extract_message_format_from_args ["--message-format"] = ExtractResult.panicked :=
  C10_flag_last_panics [] "--message-format" (by decide) (by decide) (by decide)

/-- C6: for every argument list containing no format-flag token, extraction
succeeds returning `none` with the owning intent left unchanged, except that a
`Test` intent with doc-tests requested yields `Some "human"` instead (the
intent again unchanged). -/
theorem C6_no_flag_extraction (cmd : CargoCmd)
    (h : ∀ s ∈ cmd.message_args, starts_with s "--message-format" = false) :
    ((∃ t, cmd = CargoCmd.Test t ∧ t.doc = true) →
        cmd.extract_message_format = ExtractResult.ok (some "human") cmd) ∧
    ((∀ t, cmd = CargoCmd.Test t → t.doc = false) →
        cmd.extract_message_format = ExtractResult.ok none cmd) := by
  have hargs : extract_message_format_from_args cmd.message_args =
      ExtractResult.ok none cmd.message_args := by
    rw [extract_message_format_from_args, position_eq_none _ _ h]
  have hwith : cmd.with_message_args cmd.message_args = cmd := by
    cases cmd <;> rfl
  rw [CargoCmd.extract_message_format, hargs]
  constructor
  · rintro ⟨t, rfl, hdoc⟩
    simp [hwith, hdoc]
  · intro hnot
    cases cmd with
    | Test t => simp [hwith, hnot t rfl]
    | Build b => simp [hwith]
    | Run r => simp [hwith]
    | New n => simp [hwith]
    | Init i => simp [hwith]
    | Passthrough l => simp [hwith]

/-- Witness for C6: a doc-test `Test` intent with empty passthrough args. -/
theorem C6_no_flag_extraction_witness :
    (CargoCmd.Test ⟨false, true, run_noargs⟩).extract_message_format =
      ExtractResult.ok (some "human") (CargoCmd.Test ⟨false, true, run_noargs⟩) :=
  (C6_no_flag_extraction (CargoCmd.Test ⟨false, true, run_noargs⟩) (by decide)).1
    ⟨⟨false, true, run_noargs⟩, rfl, rfl⟩

/-- C4: `split_args` partitions at the first occurrence of `"--"`: the
forwarded half is everything strictly before it, the executable half
everything strictly after it, the matched delimiter occurring in neither; with
no delimiter the forwarded half is the whole input and the executable half is
empty. Purity and determinism hold by construction: `split_args` is a total
function of its input. -/
theorem C4_split_args (ra : RemainingArgs) :
    (∀ l₁ l₂, ra.args = l₁ ++ "--" :: l₂ → "--" ∉ l₁ → ra.split_args = (l₁, l₂)) ∧
    ("--" ∉ ra.args → ra.split_args = (ra.args, [])) := by
  constructor
  · intro l₁ l₂ h hmem
    have hpos : position (fun s => s == "--") (l₁ ++ "--" :: l₂) = some l₁.length := by
      refine position_append_cons _ l₁ _ l₂ (fun a ha => ?_) (by simp)
      simp only [beq_eq_false_iff_ne, ne_eq]
      rintro rfl; exact hmem ha
    simp only [RemainingArgs.split_args, h, hpos, take_append_cons, drop_append_cons,
      dropLast_append_singleton]
  · intro hmem
    have hpos : position (fun s => s == "--") ra.args = none := by
      refine position_eq_none _ _ (fun a ha => ?_)
      simp only [beq_eq_false_iff_ne, ne_eq]
      rintro rfl; exact hmem ha
    simp only [RemainingArgs.split_args, hpos]

/-- Witness for C4 at one of the repository's own test inputs. -/
theorem C4_split_args_witness :
    RemainingArgs.split_args ⟨["--lib", "--", "foo"]⟩ = (["--lib"], ["foo"]) :=
  (C4_split_args ⟨["--lib", "--", "foo"]⟩).1 ["--lib"] ["foo"] rfl (by decide)

theorem find_artifact_eq_none : ∀ (l : List Message), (∀ m ∈ l, artifact_of m = none) →
    find_artifact l = none
  | [], _ => rfl
  | m :: rest, h => by
    have hm := h m (List.mem_cons_self m rest)
    have ih := find_artifact_eq_none rest (fun x hx => h x (List.mem_cons_of_mem m hx))
    simp [find_artifact, ih, hm]

theorem find_artifact_last (l₁ : List Message) (a : Artifact) (l₂ : List Message)
    (ha : a.executable.isSome = true) (h₂ : ∀ m ∈ l₂, artifact_of m = none) :
    find_artifact (l₁ ++ Message.compilerArtifact a :: l₂) = some a := by
  induction l₁ with
  | nil => simp [find_artifact, find_artifact_eq_none l₂ h₂, artifact_of, ha]
  | cons m ms ih => simp [find_artifact, ih]

/-- C5: artifact resolution scans the message stream in reverse chronological
order; the last-emitted compiler-artifact message with an executable path is
authoritative, and with no qualifying message the program diagnoses and exits
with the non-zero status 1 instead of producing a descriptor. -/
theorem C5_artifact_resolution (messages l₁ l₂ : List Message) (a : Artifact) :
    (messages = l₁ ++ Message.compilerArtifact a :: l₂ → a.executable.isSome = true →
      (∀ m ∈ l₂, artifact_of m = none) → get_metadata messages = Except.ok a) ∧
    ((∀ m ∈ messages, artifact_of m = none) → get_metadata messages = Except.error 1) := by
  constructor
  · rintro rfl ha h₂
    rw [get_metadata, find_artifact_last l₁ a l₂ ha h₂]
  · intro h
    rw [get_metadata, find_artifact_eq_none messages h]

/-- A target description for the artifact witnesses. -/
def target0 : Target := ⟨["bin"], "app", false⟩

/-- First of two candidate artifacts. -/
def art1 : Artifact := ⟨"pkg1", some "path1", target0⟩

/-- Second of two candidate artifacts. -/
def art2 : Artifact := ⟨"pkg2", some "path2", target0⟩

/-- Witness for C5: with two qualifying artifacts the last one emitted wins. -/
theorem C5_artifact_resolution_witness :
    get_metadata [Message.compilerArtifact art1, Message.compilerArtifact art2] =
      Except.ok art2 :=
  (C5_artifact_resolution [Message.compilerArtifact art1, Message.compilerArtifact art2]
    [Message.compilerArtifact art1] [] art2).1 rfl rfl (by decide)

/-- C8: `should_link_to_device` is false for every no-run `Test` regardless of
the runner or cache state; it is true exactly for `Run` and non-no-run `Test`
intents whose `use_custom_runner` answer at the current state is false; and it
is false for every other variant. -/
theorem C8_should_link (probe : ProbeOracle) (cmd : CargoCmd) (st : PState) :
    ((∃ t, cmd = CargoCmd.Test t ∧ t.no_run = true) →
      (CargoCmd.should_link_to_device probe st cmd).1 = false) ∧
    ((CargoCmd.should_link_to_device probe st cmd).1 = true ↔
      ((∃ r, cmd = CargoCmd.Run r ∧ (r.use_custom_runner probe st).1 = false) ∨
       (∃ t, cmd = CargoCmd.Test t ∧ t.no_run = false ∧
         (t.run_args.use_custom_runner probe st).1 = false))) ∧
    (((∃ b, cmd = CargoCmd.Build b) ∨ (∃ n, cmd = CargoCmd.New n) ∨
      (∃ i, cmd = CargoCmd.Init i) ∨ (∃ l, cmd = CargoCmd.Passthrough l)) →
      (CargoCmd.should_link_to_device probe st cmd).1 = false) := by
  refine ⟨?_, ?_, ?_⟩
  · rintro ⟨t, rfl, hnr⟩
    simp [CargoCmd.should_link_to_device, hnr]
  · cases cmd with
    | Run r => simp [CargoCmd.should_link_to_device]
    | Test t => by_cases hnr : t.no_run <;> simp [CargoCmd.should_link_to_device, hnr]
    | Build b => simp [CargoCmd.should_link_to_device]
    | New n => simp [CargoCmd.should_link_to_device]
    | Init i => simp [CargoCmd.should_link_to_device]
    | Passthrough l => simp [CargoCmd.should_link_to_device]
  · rintro (⟨b, rfl⟩ | ⟨n, rfl⟩ | ⟨i, rfl⟩ | ⟨l, rfl⟩) <;>
      simp [CargoCmd.should_link_to_device]

/-- Witness for C8: a no-run `Test` does not deploy even though the probe
would report a configured runner. -/
theorem C8_should_link_witness :
    (CargoCmd.should_link_to_device probe_true pstate0 (CargoCmd.Test test_norun)).1 = false :=
  (C8_should_link probe_true (CargoCmd.Test test_norun) pstate0).1 ⟨test_norun, rfl, rfl⟩

/-- C9: the runner probe maps a zero exit status of the probe process to
`true`, a non-zero exit status to `false`, and a spawn failure to `false`; the
probing function is total, so a probe failure is never propagated as an error
of the invocation. -/
theorem C9_probe_interpretation (probe : ProbeOracle) (r : Run) (e : Env) :
    (probe (r.probe_command (set_var e "RUSTFLAGS" (rustflags_of e))) = ProbeOutcome.exited 0 →
      (r.use_custom_runner probe ⟨e, none⟩).1 = true) ∧
    (∀ c, c ≠ 0 →
      probe (r.probe_command (set_var e "RUSTFLAGS" (rustflags_of e))) = ProbeOutcome.exited c →
      (r.use_custom_runner probe ⟨e, none⟩).1 = false) ∧
    (probe (r.probe_command (set_var e "RUSTFLAGS" (rustflags_of e))) = ProbeOutcome.spawnFailure →
      (r.use_custom_runner probe ⟨e, none⟩).1 = false) := by
  refine ⟨fun h => ?_, fun c hc h => ?_, fun h => ?_⟩ <;>
    simp [Run.use_custom_runner, h, *]

/-- Witness for C9: a successful probe process yields `true`. -/
theorem C9_probe_interpretation_witness :
    (run_noargs.use_custom_runner probe_true ⟨env_empty, none⟩).1 = true :=
  (C9_probe_interpretation probe_true run_noargs env_empty).1 rfl

/-- C1, counterexample: the claim predicts that computing `use_custom_runner`
on one `Run` instance never determines the result subsequently returned by a
distinct instance. With the oracle `probe_sel` (success exactly for config
`a`), instance `run_cfg_b` alone computes `false`; but computed after
`run_cfg_a`, it returns `true` — the `HAS_RUNNER` once-cell is a process-wide
static shared across instances, not per-instance state. -/
theorem C1_counterexample :
    (run_cfg_b.use_custom_runner probe_sel ⟨env_empty, none⟩).1 = false ∧
    (run_cfg_b.use_custom_runner probe_sel
        (run_cfg_a.use_custom_runner probe_sel ⟨env_empty, none⟩).2).1 = true := by
  constructor
  · decide
  · decide

/-- C1 (amended): the runner-probe result is memoized process-globally, not
per instance: after `use_custom_runner` has been computed once on any
instance, every subsequent call on any instance returns that same cached
boolean. -/
theorem C1_global_memoization (probe : ProbeOracle) (r₁ r₂ : Run) (st : PState) :
    (r₂.use_custom_runner probe (r₁.use_custom_runner probe st).2).1 =
      (r₁.use_custom_runner probe st).1 := by
  cases h : st.cache with
  | some b => simp [Run.use_custom_runner, h]
  | none => simp [Run.use_custom_runner, h]

/-- C2, counterexample: the claim predicts the parent environment is unchanged
after probing the runner; in fact the probe's first computation calls
`env::set_var` and writes `RUSTFLAGS` into the parent environment. -/
theorem C2_counterexample :
    (run_cfg_a.use_custom_runner probe_sel ⟨env_empty, none⟩).2.env "RUSTFLAGS" ≠
      env_empty "RUSTFLAGS" := by
  decide

/-- Agreement of process states up to the probe's `RUSTFLAGS` write: every
other variable is unchanged, and a filled once-cell means no change at all. -/
def env_agrees (st st' : PState) : Prop :=
  (∀ k, k ≠ "RUSTFLAGS" → st'.env k = st.env k) ∧ (st.cache.isSome = true → st' = st)

theorem env_agrees_refl (st : PState) : env_agrees st st := ⟨fun _ _ => rfl, fun _ => rfl⟩

theorem env_agrees_trans {s t u : PState} (h₁ : env_agrees s t) (h₂ : env_agrees t u) :
    env_agrees s u := by
  refine ⟨fun k hk => (h₂.1 k hk).trans (h₁.1 k hk), fun hc => ?_⟩
  have ht : t = s := h₁.2 hc
  have hu : u = t := h₂.2 (by rw [ht]; exact hc)
  rw [hu, ht]

theorem use_custom_runner_env_agrees (probe : ProbeOracle) (r : Run) (st : PState) :
    env_agrees st (r.use_custom_runner probe st).2 := by
  cases h : st.cache with
  | some b =>
    have heq : (r.use_custom_runner probe st).2 = st := by
      simp [Run.use_custom_runner, h]
    rw [heq]; exact env_agrees_refl st
  | none =>
    constructor
    · intro k hk
      simp only [Run.use_custom_runner, h]
      simp [set_var, hk]
    · intro hc
      rw [h] at hc; simp at hc

theorem subcommand_name_env_agrees (probe : ProbeOracle) (st : PState) (cmd : CargoCmd) :
    env_agrees st (CargoCmd.subcommand_name probe st cmd).2 := by
  cases cmd
  case Run r => exact use_custom_runner_env_agrees probe r st
  all_goals exact env_agrees_refl st

theorem should_run_env_agrees (probe : ProbeOracle) (t : Test) (st : PState) :
    env_agrees st (t.should_run probe st).2 :=
  use_custom_runner_env_agrees probe t.run_args st

theorem rustdocflags_env_agrees (probe : ProbeOracle) (t : Test) (st : PState) :
    env_agrees st (t.rustdocflags probe st).2 :=
  should_run_env_agrees probe t st

theorem test_cargo_args_env_agrees (probe : ProbeOracle) (t : Test) (st : PState) :
    env_agrees st (t.cargo_args probe st).2 := by
  by_cases hd : t.doc
  · simp only [Test.cargo_args, hd, if_true]
    exact env_agrees_refl st
  · simp only [Test.cargo_args, hd, Bool.false_eq_true, if_false]
    exact should_run_env_agrees probe t st

theorem cargo_args_env_agrees (probe : ProbeOracle) (st : PState) (cmd : CargoCmd) :
    env_agrees st (CargoCmd.cargo_args probe st cmd).2 := by
  cases cmd
  case Test t => exact test_cargo_args_env_agrees probe t st
  all_goals exact env_agrees_refl st

theorem make_cargo_command_env_agrees (probe : ProbeOracle) (input : Input)
    (fmt : Option String) (st : PState) :
    env_agrees st (make_cargo_command probe input fmt st).2 := by
  obtain ⟨cmd, vb, cfg⟩ := input
  cases cmd with
  | Run r =>
    exact env_agrees_trans (use_custom_runner_env_agrees probe r st)
      (use_custom_runner_env_agrees probe r _)
  | Test t =>
    exact env_agrees_trans (rustdocflags_env_agrees probe t st)
      (env_agrees_trans (test_cargo_args_env_agrees probe t _)
        (use_custom_runner_env_agrees probe t.run_args _))
  | Build b => exact env_agrees_refl st
  | New n => exact env_agrees_refl st
  | Init i => exact env_agrees_refl st
  | Passthrough l => exact env_agrees_refl st

/-- C2 (amended): command synthesis passes `RUSTFLAGS` and `RUSTDOCFLAGS` into
the child command's environment overlay and leaves the parent environment
unchanged at every variable except `RUSTFLAGS`, which the runner probe writes
via `env::set_var` on its first computation; once the probe cache is filled,
synthesis leaves the parent state entirely unchanged. -/
theorem C2_parent_env_effects (probe : ProbeOracle) (input : Input)
    (fmt : Option String) (st : PState) :
    (∀ k, k ≠ "RUSTFLAGS" → (make_cargo_command probe input fmt st).2.env k = st.env k) ∧
    (st.cache.isSome = true → (make_cargo_command probe input fmt st).2 = st) :=
  make_cargo_command_env_agrees probe input fmt st

/-- A concrete `Build` input for the C2 witness. -/
def input_build : Input := ⟨CargoCmd.Build ⟨false, ⟨[]⟩⟩, false, []⟩

/-- Witness for C2 (amended): synthesizing a `Build` command leaves an
arbitrary other variable of the parent environment unchanged. -/
theorem C2_parent_env_effects_witness :
    (make_cargo_command probe_true input_build none ⟨env_empty, none⟩).2.env "PATH" =
      env_empty "PATH" :=
  (C2_parent_env_effects probe_true input_build none ⟨env_empty, none⟩).1 "PATH" (by decide)

end CargoNds
